import Mathlib

/-!
Verification development for the faas-netes control-plane core
(pkg/controller/statefulset.go, pkg/controller/informers.go,
pkg/handlers/update.go, pkg/k8s/securityContext.go and the associated
test files).  Kubernetes objects are shallowly embedded as plain
inductive data; Go maps become association lists (only key lookup and
key-wise overwrite are used by the code under study); external
collaborators (the JSON codec, the resource-quantity and probe parsers,
the profile store and the API-server writes) are passed in as explicit
parameters or pre-resolved results, exactly as the spec's section 6
describes them as configuration-supplied collaborators.
-/

namespace FaasNetes

/-- Association-list string map (embedding of Go `map[string]string`). -/
abbrev SMap := List (String × String)

/-- Key-wise overwrite: replace the first binding of `k`, or append one.
Embeds the Go assignment `m[k] = v`. -/
def upsert (m : SMap) (k v : String) : SMap :=
  match m with
  | [] => [(k, v)]
  | (k', v') :: rest => if k' = k then (k, v) :: rest else (k', v') :: upsert rest k v

/-- Fold a second map into a base map key by key (embedding of the Go
`for k, v := range src { dst[k] = v }` loops). -/
def mergeInto (base : SMap) (src : SMap) : SMap :=
  src.foldl (fun m kv => upsert m kv.1 kv.2) base

/-- Container security context (the fields touched by the sources). -/
structure SecurityContext where
  readOnlyRootFilesystem : Option Bool
  runAsUser : Option Int
  allowPrivilegeEscalation : Option Bool
deriving Repr, DecidableEq

/-- A volume mount of a container. -/
structure VolumeMount where
  name : String
  mountPath : String
  readOnly : Bool
deriving Repr, DecidableEq

/-- One projected-secret source of a projected volume: the secret's name
and the projected key items. -/
structure VolumeProjection where
  secretName : String
  items : List String
deriving Repr, DecidableEq

/-- Volume source: the two sources the code constructs, plus a catch-all
for pre-existing volumes of other kinds. -/
inductive VolumeSource
  | emptyDir
  | projected (sources : List VolumeProjection)
  | other
deriving Repr, DecidableEq

/-- A pod volume. -/
structure Volume where
  name : String
  source : VolumeSource
deriving Repr, DecidableEq

/-- Parsed resource quantities (the four fields makeResources fills). -/
structure Resources where
  limitsMemory : Option Nat
  limitsCPU : Option Nat
  requestsMemory : Option Nat
  requestsCPU : Option Nat
deriving Repr, DecidableEq

/-- The default (empty) resource requirements. -/
def Resources.empty : Resources := ⟨none, none, none, none⟩

/-- A container of the pod template (fields used by the sources). -/
structure Container where
  name : String
  image : String
  imagePullPolicy : String
  ports : List Nat
  env : List (String × String)
  resources : Resources
  livenessProbe : Option String
  readinessProbe : Option String
  securityContext : Option SecurityContext
  volumeMounts : List VolumeMount
deriving Repr, DecidableEq

/-- The pod spec of the statefulset template. -/
structure PodSpec where
  containers : List Container
  volumes : List Volume
  nodeSelector : SMap
deriving Repr, DecidableEq

/-- The pod template: metadata labels and annotations plus the pod spec. -/
structure PodTemplate where
  labels : SMap
  annotations : SMap
  spec : PodSpec
deriving Repr, DecidableEq

/-- The statefulset spec: nullable replica count, fixed rolling-update
max-unavailable, and the pod template. -/
structure StatefulSetSpec where
  replicas : Option Int
  maxUnavailable : Nat
  template : PodTemplate
deriving Repr, DecidableEq

/-- A statefulset object (metadata plus spec). -/
structure StatefulSet where
  name : String
  ns : String
  annotations : SMap
  spec : StatefulSetSpec
deriving Repr, DecidableEq

/-- Resource request/limit strings of a function spec
(types.FunctionResources). -/
structure FunctionResources where
  memory : String
  cpu : String
deriving Repr, DecidableEq

/-- The Function custom-resource spec (faasv1.FunctionSpec fields used by
the sources). -/
structure FunctionSpec where
  name : String
  image : String
  handler : String
  labels : Option SMap
  annotationMap : Option SMap
  environment : Option SMap
  constraints : List String
  secrets : List String
  limits : Option FunctionResources
  requests : Option FunctionResources
  readOnlyRootFilesystem : Bool
deriving Repr, DecidableEq

/-- The Function custom resource: object metadata name/namespace plus
its spec. -/
structure Function where
  name : String
  ns : String
  spec : FunctionSpec
deriving Repr, DecidableEq

/-- The deployment request of the HTTP update path
(types.FunctionDeployment fields used by the sources). -/
structure FunctionDeployment where
  service : String
  image : String
  envProcess : String
  envVars : SMap
  labels : Option SMap
  secrets : List String
  limits : Option FunctionResources
  requests : Option FunctionResources
  readOnlyRootFilesystem : Bool
  constraints : List String
deriving Repr, DecidableEq

/-- Modelled from the spec: SecretDescriptor (the resolved-secret record;
the Go corev1.Secret and its resolution code are not among the sources):
a kind (`pull` or `generic`) and, for generic secrets, the data key
names available for projection. -/
inductive SecretKind
  | pull
  | generic
deriving Repr, DecidableEq

/-- Modelled from the spec: a resolved secret record, see SecretKind. -/
structure SecretDescriptor where
  kind : SecretKind
  keys : List String
deriving Repr, DecidableEq

/-- The spec-signature annotation key (statefulset.go). -/
def annotationFunctionSpec : String := "com.openfaas.function.spec"

/-- Modelled from the spec: the min-replica label key constant
(LabelMinReplicas is referenced by replicas_test.go but its definition
is not among the sources; the spec calls it an implementation-defined
constant). -/
def LabelMinReplicas : String := "com.openfaas.scale.min"

/-- Modelled from the spec: the fixed configured secrets mount path
constant (referenced by the tests, definition not among the sources). -/
def secretsMountPath : String := "/var/openfaas/secrets"

/-- The fixed non-root user id (securityContext.go). -/
def SecurityContextUserID : Int := 12000

/-- Modelled from the spec: the function port constant (referenced by
statefulset.go, definition not among the sources). -/
def functionPort : Nat := 8080

/-! ## Pure helpers translated from statefulset.go -/

/-- makeEnvVars (statefulset.go): the designated `fprocess` variable from
the handler string, when non-empty, followed by the environment mapping. -/
def makeEnvVars (f : Function) : List (String × String) :=
  (if f.spec.handler.length > 0 then [("fprocess", f.spec.handler)] else [])
    ++ f.spec.environment.getD []

/-- makeLabels (statefulset.go): the base labels `faas_function`, `app`,
`controller`, overwritten key-wise by the function's own labels. -/
def makeLabels (f : Function) : SMap :=
  mergeInto
    [("faas_function", f.spec.name), ("app", f.spec.name), ("controller", f.name)]
    (f.spec.labels.getD [])

/-- makeAnnotations (statefulset.go): the scrape-disable marker, the
function's own annotations, and the serialized spec signature under
`com.openfaas.function.spec`.  The JSON encoder is an external
collaborator passed as `encode`. -/
def makeAnnotations (encode : FunctionSpec → String) (f : Function) : SMap :=
  upsert
    (mergeInto [("prometheus.io.scrape", "false")] (f.spec.annotationMap.getD []))
    annotationFunctionSpec (encode f.spec)

/-- makeNodeSelector (statefulset.go): split each constraint on `=` and
keep the pairs that split into exactly two parts. -/
def makeNodeSelector (constraints : List String) : SMap :=
  constraints.foldl
    (fun sel c =>
      match c.splitOn "=" with
      | [k, v] => upsert sel k v
      | _ => sel)
    []

/-- Modelled from the spec: createSelector (handlers package, definition
not among the sources) computes the node selector of the update path
from the request constraints; per the spec both paths build the same
`key=value` placement-constraint mapping. -/
def createSelector (constraints : List String) : SMap :=
  makeNodeSelector constraints

/-- Accumulating decimal digit parser over a character list (kernel-
reducible replacement for the library string-to-number helpers). -/
def parseNatAux : List Char → Nat → Option Nat
  | [], acc => some acc
  | c :: rest, acc =>
    if c.isDigit then parseNatAux rest (acc * 10 + (c.toNat - '0'.toNat))
    else none

/-- Modelled from the spec: the decimal integer parse used on the
min-replicas label value (the strconv-based helper is not among the
sources); malformed values yield none. -/
def parseIntString (s : String) : Option Int :=
  match s.data with
  | [] => none
  | '-' :: rest =>
    match rest with
    | [] => none
    | _ => (parseNatAux rest 0).map (fun n => -(n : Int))
  | cs => (parseNatAux cs 0).map (fun n => (n : Int))

/-- Modelled from the spec: the parse of the declared-minimum label value
(the strconv-based helper is not among the sources; the spec says a
declared minimum is parsed from the min-replicas label and malformed
values are treated as absent).  Non-positive values are also treated as
absent, as required by the Test_Replicas scenarios. -/
def parseMinLabel (v : String) : Option Int :=
  match parseIntString v with
  | some r => if 0 < r then some r else none
  | none => none

/-- Modelled from the spec: getMinReplicaCount (handlers package,
definition not among the sources): look up the min-replicas label and
parse it, treating malformed or non-positive values as absent. -/
def getMinReplicaCount (labels : SMap) : Option Int :=
  match List.lookup LabelMinReplicas labels with
  | some v => parseMinLabel v
  | none => none

/-- The declared minimum of a function: the parsed min-replicas label
value, when the function has labels. -/
def declaredMin (f : Function) : Option Int :=
  match f.spec.labels with
  | some lbs => getMinReplicaCount lbs
  | none => none

/-- The existing observed replica count of an optionally observed
statefulset. -/
def observedReplicas (existing : Option StatefulSet) : Option Int :=
  existing.bind (fun s => s.spec.replicas)

/-- Modelled from the spec: getReplicas (controller package, definition
not among the sources) reconciles the declared minimum against the
existing observed count.  The exact rule is pinned by the Test_Replicas
scenarios in replicas_test.go, which require an existing count of zero
to be preserved even when a minimum is declared; see
getReplicas_matches_Test_Replicas below. -/
def getReplicas (f : Function) (existing : Option StatefulSet) : Option Int :=
  match declaredMin f, observedReplicas existing with
  | none, none => none
  | some m, none => some m
  | none, some e => some e
  | some m, some e => if e = 0 then some e else if e < m then some m else some e

/-! ## Security-context operations (securityContext.go) -/

/-- The empty security context created when a container has none. -/
def SecurityContext.empty : SecurityContext := ⟨none, none, none⟩

/-- ConfigureContainerUserID (securityContext.go), acting on the first
container (given explicitly): pin run-as-user to 12000 when the
process-wide SetNonRootUser flag is set, clear it otherwise; create the
security context when absent. -/
def configureContainerUserIdCore (setNonRootUser : Bool) (c : Container) : Container :=
  let functionUser : Option Int := if setNonRootUser then some SecurityContextUserID else none
  let ctx := c.securityContext.getD SecurityContext.empty
  { c with securityContext := some { ctx with runAsUser := functionUser } }

/-- ConfigureContainerUserID lifted to a pod spec: the Go code accesses
`Containers[0]` unconditionally, so the result is `none` (undefined)
exactly when the container list is empty. -/
def configureContainerUserID (setNonRootUser : Bool) (p : PodSpec) : Option PodSpec :=
  match p.containers with
  | [] => none
  | c :: rest => some { p with containers := configureContainerUserIdCore setNonRootUser c :: rest }

/-- Modelled from the spec: removeVolume (k8s package, definition not
among the sources) removes every volume bearing the given name; the
remove-all behaviour is pinned by
Test_UpdateSecrets_RemovesAllCopiesOfExitingSecretsVolumes. -/
def removeVolume (name : String) (vs : List Volume) : List Volume :=
  vs.filter (fun v => v.name ≠ name)

/-- Modelled from the spec: removeVolumeMount (k8s package, definition
not among the sources) removes every volume mount bearing the given
name. -/
def removeVolumeMount (name : String) (ms : List VolumeMount) : List VolumeMount :=
  ms.filter (fun m => m.name ≠ name)

/-- The writable EmptyDir-backed temp volume added when the read-only
root filesystem flag is set. -/
def tempVolume : Volume := ⟨"temp", VolumeSource.emptyDir⟩

/-- The read-write mount of the temp volume at /tmp. -/
def tempMount : VolumeMount := ⟨"temp", "/tmp", false⟩

/-- ConfigureReadOnlyRootFilesystem (securityContext.go), acting on the
first container (given explicitly) and the pod volume list: set the
security-context flag (creating the context when absent), remove every
temp volume and temp mount, then, only when the flag is true, add the
single EmptyDir temp volume and its read-write /tmp mount. -/
def configureReadOnlyRootFsCore (flag : Bool) (c : Container) (volumes : List Volume) :
    Container × List Volume :=
  let ctx :=
    match c.securityContext with
    | some sc => { sc with readOnlyRootFilesystem := some flag }
    | none => { SecurityContext.empty with readOnlyRootFilesystem := some flag }
  let vs := removeVolume "temp" volumes
  let ms := removeVolumeMount "temp" c.volumeMounts
  if flag then
    ({ c with securityContext := some ctx, volumeMounts := ms ++ [tempMount] },
      vs ++ [tempVolume])
  else
    ({ c with securityContext := some ctx, volumeMounts := ms }, vs)

/-- ConfigureReadOnlyRootFilesystem lifted to a pod spec: the Go code
accesses `Containers[0]` unconditionally, so the result is `none`
(undefined) exactly when the container list is empty. -/
def configureReadOnlyRootFilesystem (flag : Bool) (p : PodSpec) : Option PodSpec :=
  match p.containers with
  | [] => none
  | c :: rest =>
    let cv := configureReadOnlyRootFsCore flag c p.volumes
    some { p with containers := cv.1 :: rest, volumes := cv.2 }

/-! ## Secret projection (spec-modelled; the UpdateSecrets and
ConfigureSecrets bodies are not among the sources, only their tests) -/

/-- The name of the single secret-projection volume for a service. -/
def secretVolumeName (service : String) : String :=
  service ++ "-projected-secrets"

/-- Modelled from the spec: resolve every requested secret name, failing
with a NotFoundError message on the first lookup miss, and collect one
projected-secret source per requested generic secret (each source lists
the secret's keys as projection items); pull-kind secrets contribute no
projected source, as pinned by the `Sources[0].Secret.Items[0].Key`
check of the tests. -/
def projectionsFor (requested : List String) (resolved : List (String × SecretDescriptor)) :
    Except String (List VolumeProjection) :=
  match requested with
  | [] => Except.ok []
  | n :: rest =>
    match List.lookup n resolved with
    | none => Except.error ("required secret " ++ n ++ " was not found in the cluster")
    | some sd =>
      (projectionsFor rest resolved).map
        (fun ps =>
          match sd.kind with
          | SecretKind.pull => ps
          | SecretKind.generic => ⟨n, sd.keys⟩ :: ps)

/-- The read-only mount of the secret-projection volume. -/
def secretMount (service : String) : VolumeMount :=
  ⟨secretVolumeName service, secretsMountPath, true⟩

/-- The mount pass of the secret projection on one container: remove
every mount of the projection volume, then add the single read-only
mount back when the requested list is non-empty. -/
def applySecretMounts (service : String) (requested : List String) (c : Container) : Container :=
  let ms := removeVolumeMount (secretVolumeName service) c.volumeMounts
  { c with volumeMounts := if requested.isEmpty then ms else ms ++ [secretMount service] }

/-- The volume pass of the secret projection: remove every volume of the
projection name, then add the single projected volume back when the
requested list is non-empty. -/
def applySecretVolumes (service : String) (requested : List String)
    (ps : List VolumeProjection) (vs : List Volume) : List Volume :=
  let vols := removeVolume (secretVolumeName service) vs
  if requested.isEmpty then vols
  else vols ++ [⟨secretVolumeName service, VolumeSource.projected ps⟩]

/-- Modelled from the spec: the secret projection operation (UpdateSecrets
of the controller package and ConfigureSecrets of the k8s package share
it; neither body is among the sources).  It resolves every requested
name first (a miss aborts with no mutation), removes every existing
volume and mount named `service-projected-secrets`, and, when the
requested list is non-empty, adds exactly one projected volume and one
matching read-only mount per container at the secrets mount path. -/
def configureSecrets (service : String) (requested : List String)
    (resolved : List (String × SecretDescriptor)) (p : PodSpec) :
    Except String PodSpec :=
  (projectionsFor requested resolved).map
    (fun ps =>
      { p with
        volumes := applySecretVolumes service requested ps p.volumes,
        containers := p.containers.map (applySecretMounts service requested) })

/-! ## Resource parsing (spec-modelled; makeResources and createResources
are not among the sources).  The resource-quantity parser itself is a
configuration-supplied collaborator `parseQ`. -/

/-- Modelled from the spec: parse one optional resource field; an absent
or empty string leaves the field unset without error, a malformed value
leaves the field at its default and flags the failure. -/
def fieldParse (parseQ : String → Option Nat) (s : Option String) : Option Nat × Bool :=
  match s with
  | none => (none, false)
  | some str =>
    if str = "" then (none, false)
    else
      match parseQ str with
      | some q => (some q, false)
      | none => (none, true)

/-- Modelled from the spec: makeResources (controller package, definition
not among the sources): parse the four request/limit strings into typed
quantities; each malformed field is left at its default and the failure
is flagged so the caller can warn (synthesis) or abort (update). -/
def makeResources (parseQ : String → Option Nat)
    (limits requests : Option FunctionResources) : Resources × Bool :=
  let lm := fieldParse parseQ (limits.map (fun r => r.memory))
  let lc := fieldParse parseQ (limits.map (fun r => r.cpu))
  let rm := fieldParse parseQ (requests.map (fun r => r.memory))
  let rc := fieldParse parseQ (requests.map (fun r => r.cpu))
  (⟨lm.1, lc.1, rm.1, rc.1⟩, lm.2 || lc.2 || rm.2 || rc.2)

/-- Modelled from the spec: createResources (handlers package, definition
not among the sources): the update-path variant surfaces any
resource-quantity parse failure as an error instead of recovering. -/
def createResources (parseQ : String → Option Nat)
    (limits requests : Option FunctionResources) : Except String Resources :=
  let rr := makeResources parseQ limits requests
  if rr.2 then Except.error "invalid resource quantity" else Except.ok rr.1

/-! ## Change detector (statefulset.go, statefulsetNeedsUpdate) -/

/-- statefulsetNeedsUpdate (statefulset.go): read the stored
spec-signature annotation; an absent or empty value means update, a
value the JSON decoder (external collaborator `decode`) rejects means
update, and a successfully decoded previous spec means update exactly
when it is structurally unequal to the incoming spec. -/
def statefulsetNeedsUpdate (decode : String → Option FunctionSpec)
    (f : Function) (ss : StatefulSet) : Bool :=
  let prevJson := (List.lookup annotationFunctionSpec ss.annotations).getD ""
  if prevJson = "" then true
  else
    match decode prevJson with
    | none => true
    | some prev => if prev = f.spec then false else true

/-! ## ScaleGuard (informers.go, applyValidation and the registration
sweep) -/

/-- The decision core of applyValidation (informers.go): given the
configured ceiling, return the corrective target, or `none` when no
write is needed (nil replica count, missing `faas_function` pod-template
marker label, or a count already inside the bounds). -/
def scaleTarget (maxReplicas : Int) (ss : StatefulSet) : Option Int :=
  match ss.spec.replicas with
  | none => none
  | some current =>
    match List.lookup "faas_function" ss.spec.template.labels with
    | none => none
    | some _ =>
      if current = 0 then some 1
      else if maxReplicas < current then some maxReplicas
      else none

/-- Outcome of one conditional corrective write against the store. -/
inductive WriteResult
  | ok
  | conflict
  | failed (msg : String)
deriving Repr, DecidableEq

/-- A statefulset clone with the replica count overwritten (the deep-copy
plus assignment of informers.go). -/
def setReplicas (ss : StatefulSet) (n : Int) : StatefulSet :=
  { ss with spec := { ss.spec with replicas := some n } }

/-- The result of one applyValidation invocation: the surfaced error, if
any, and the list of corrective writes attempted (at most one). -/
structure GuardOutcome where
  err : Option String
  writes : List StatefulSet
deriving Repr, DecidableEq

/-- applyValidation (informers.go): decide the corrective target; when
one exists issue exactly one conditional write of the clone, treating a
version conflict as success and surfacing every other write failure. -/
def applyValidation (maxReplicas : Int) (write : WriteResult) (ss : StatefulSet) :
    GuardOutcome :=
  match scaleTarget maxReplicas ss with
  | none => ⟨none, []⟩
  | some t =>
    let clone := setReplicas ss t
    match write with
    | WriteResult.ok => ⟨none, [clone]⟩
    | WriteResult.conflict => ⟨none, [clone]⟩
    | WriteResult.failed msg => ⟨some msg, [clone]⟩

/-- The startup full-list pass of RegisterEventHandlers (informers.go):
applyValidation is invoked once per listed statefulset, with the write
outcome of each supplied by the store. -/
def startupSweep (maxReplicas : Int) (writeFor : StatefulSet → WriteResult)
    (list : List StatefulSet) : List GuardOutcome :=
  list.map (fun ss => applyValidation maxReplicas (writeFor ss) ss)

/-! ## Synthesis path (statefulset.go, newStatefulSet).  Probe parsing,
profile resolution and the two profile transformations are external
collaborators; their results and bodies are parameters. -/

/-- A profile is opaque to this core (spec section 3); its pod-spec
fragment is applied or removed by the collaborator-supplied
transformations. -/
abbrev Profile := String

/-- Pre-resolved collaborator results consumed by one synthesis run. -/
structure SynthEnv where
  probesResult : Except String (Option String × Option String)
  profilesToRemove : Except String (List Profile)
  profilesToApply : Except String (List Profile)
deriving Repr

/-- The single container newStatefulSet constructs before the
configuration passes. -/
def synthInitialContainer (parseQ : String → Option Nat)
    (env : SynthEnv) (f : Function) : Container :=
  let probes := match env.probesResult with
    | Except.ok p => p
    | Except.error _ => (none, none)
  { name := f.spec.name
    image := f.spec.image
    imagePullPolicy := "Always"
    ports := [functionPort]
    env := makeEnvVars f
    resources := (makeResources parseQ f.spec.limits f.spec.requests).1
    livenessProbe := probes.1
    readinessProbe := probes.2
    securityContext := some { SecurityContext.empty with allowPrivilegeEscalation := some false }
    volumeMounts := [] }

/-- The pod spec of the synthesis path after the security-context passes
and the profile passes, but before the secret projection.  newStatefulSet
invokes the two Containers[0] configuration passes on its freshly
constructed single-container list, then removes the profiles declared
previously but absent now and applies the currently declared ones
(resolution failures are logged and skipped). -/
def synthPodPreSecrets (parseQ : String → Option Nat) (setNonRootUser : Bool)
    (applyP removeP : Profile → PodSpec → PodSpec)
    (env : SynthEnv) (f : Function) : PodSpec :=
  let c0 := synthInitialContainer parseQ env f
  let cv := configureReadOnlyRootFsCore f.spec.readOnlyRootFilesystem c0 []
  let c1 := configureContainerUserIdCore setNonRootUser cv.1
  let pod0 : PodSpec :=
    { containers := [c1], volumes := cv.2, nodeSelector := makeNodeSelector f.spec.constraints }
  let pod1 := match env.profilesToRemove with
    | Except.ok ps => ps.foldl (fun p pr => removeP pr p) pod0
    | Except.error _ => pod0
  match env.profilesToApply with
  | Except.ok ps => ps.foldl (fun p pr => applyP pr p) pod1
  | Except.error _ => pod1

/-- newStatefulSet (statefulset.go): synthesize the desired statefulset
from the function spec and the optionally observed existing one.  Probe
and resource parse failures and profile or secret failures are logged
and recovered, never aborting the synthesis: on a secret-projection
failure the pod spec is left exactly as it was before that step. -/
def newStatefulSet (parseQ : String → Option Nat) (encode : FunctionSpec → String)
    (setNonRootUser : Bool) (applyP removeP : Profile → PodSpec → PodSpec)
    (env : SynthEnv) (f : Function) (existing : Option StatefulSet)
    (existingSecrets : List (String × SecretDescriptor)) : StatefulSet :=
  let annotations := makeAnnotations encode f
  let pod := synthPodPreSecrets parseQ setNonRootUser applyP removeP env f
  let podFinal := match configureSecrets f.spec.name f.spec.secrets existingSecrets pod with
    | Except.ok p => p
    | Except.error _ => pod
  { name := f.spec.name
    ns := f.ns
    annotations := annotations
    spec :=
      { replicas := getReplicas f existing
        maxUnavailable := 0
        template := { labels := makeLabels f, annotations := annotations, spec := podFinal } } }

/-! ## Update path (update.go, updateStatefulSetSpec).  The store get,
the secrets fetch, probe parsing, profile resolution, the
timestamp-derived uid and the final conditional write are pre-resolved
collaborator results. -/

/-- Modelled from the spec: buildEnvVars (handlers package, definition
not among the sources): the designated `fprocess` variable from the
request's process string, when non-empty, followed by the environment
mapping. -/
def buildEnvVars (r : FunctionDeployment) : List (String × String) :=
  (if r.envProcess.length > 0 then [("fprocess", r.envProcess)] else []) ++ r.envVars

/-- Pre-resolved collaborator results consumed by one update run. -/
structure UpdateEnv where
  fetched : Except String StatefulSet
  secretsFetch : Except String (List (String × SecretDescriptor))
  probesResult : Except String (Option String × Option String)
  profilesToRemove : Except String (List Profile)
  profilesToApply : Except String (List Profile)
  uid : String
  writeResult : Except String Unit
deriving Repr

/-- The result of one updateStatefulSetSpec run: either an error with its
HTTP status or the written statefulset, plus whether the store write was
attempted. -/
structure UpdateOutcome where
  result : Except (String × Nat) StatefulSet
  wrote : Bool
deriving Repr

/-- Set the probe references on the first container of a pod spec (the
`Containers[0].LivenessProbe/ReadinessProbe` assignments of update.go,
reached only inside the non-empty-container branch). -/
def setHeadProbes (pod : PodSpec) (probes : Option String × Option String) : PodSpec :=
  match pod.containers with
  | [] => pod
  | c :: rest =>
    { pod with containers := { c with livenessProbe := probes.1, readinessProbe := probes.2 } :: rest }

/-- The body of updateStatefulSetSpec's non-empty-container branch
(update.go lines 110-192): mutate the fetched statefulset step by step,
aborting with HTTP 400 at the first failing step. -/
def updateContainerBranch (parseQ : String → Option Nat) (setNonRootUser : Bool)
    (applyP removeP : Profile → PodSpec → PodSpec) (env : UpdateEnv)
    (request : FunctionDeployment) (annotations : SMap)
    (ss0 : StatefulSet) (c : Container) (rest : List Container) :
    Except (String × Nat) StatefulSet :=
  let c1 := { c with image := request.image, imagePullPolicy := "Always",
                     env := buildEnvVars request }
  let cv := configureReadOnlyRootFsCore request.readOnlyRootFilesystem c1
              ss0.spec.template.spec.volumes
  let c2 := configureContainerUserIdCore setNonRootUser cv.1
  let labels := mergeInto
    [("faas_function", request.service), ("uid", env.uid)]
    (request.labels.getD [])
  let replicas := match request.labels with
    | some lbs =>
      match getMinReplicaCount lbs with
      | some m => some m
      | none => ss0.spec.replicas
    | none => ss0.spec.replicas
  match createResources parseQ request.limits request.requests with
  | Except.error e => Except.error (e, 400)
  | Except.ok resources =>
    let c3 := { c2 with resources := resources }
    match env.secretsFetch with
    | Except.error e => Except.error (e, 400)
    | Except.ok resolved =>
      let pod0 : PodSpec :=
        { containers := c3 :: rest, volumes := cv.2,
          nodeSelector := createSelector request.constraints }
      match configureSecrets request.service request.secrets resolved pod0 with
      | Except.error e => Except.error (e, 400)
      | Except.ok pod1 =>
        match env.probesResult with
        | Except.error e => Except.error (e, 400)
        | Except.ok probes =>
          let pod2 := setHeadProbes pod1 probes
          match env.profilesToRemove with
          | Except.error e => Except.error (e, 400)
          | Except.ok toRemove =>
            let pod3 := toRemove.foldl (fun p pr => removeP pr p) pod2
            match env.profilesToApply with
            | Except.error e => Except.error (e, 400)
            | Except.ok toApply =>
              let pod4 := toApply.foldl (fun p pr => applyP pr p) pod3
              Except.ok
                { ss0 with
                  annotations := annotations,
                  spec :=
                    { ss0.spec with
                      replicas := replicas,
                      template := { labels := labels, annotations := annotations, spec := pod4 } } }

/-- updateStatefulSetSpec (update.go): fetch the statefulset (a miss is
HTTP 404), run the container branch when the container list is non-empty
(any step failure aborts with HTTP 400 before the write), then issue the
single conditional write (a write failure is HTTP 500). -/
def updateStatefulSetSpec (parseQ : String → Option Nat) (setNonRootUser : Bool)
    (applyP removeP : Profile → PodSpec → PodSpec) (env : UpdateEnv)
    (request : FunctionDeployment) (annotations : SMap) : UpdateOutcome :=
  match env.fetched with
  | Except.error e => ⟨Except.error (e, 404), false⟩
  | Except.ok ss0 =>
    let step : Except (String × Nat) StatefulSet :=
      match ss0.spec.template.spec.containers with
      | [] => Except.ok ss0
      | c :: rest =>
        updateContainerBranch parseQ setNonRootUser applyP removeP env request annotations ss0 c rest
    match step with
    | Except.error e => ⟨Except.error e, false⟩
    | Except.ok ssFinal =>
      match env.writeResult with
      | Except.error e => ⟨Except.error (e, 500), true⟩
      | Except.ok _ => ⟨Except.ok ssFinal, true⟩

/-! ## Concrete fixtures mirroring the test files, used by the scenario
validations, witnesses and counterexamples. -/

/-- The zero-valued function spec (Go `faasv1.FunctionSpec{}`). -/
def specZero : FunctionSpec :=
  ⟨"", "", "", none, none, none, [], [], none, none, false⟩

/-- The zero-valued function object (Go `&faasv1.Function{}`). -/
def fnZero : Function := ⟨"", "", specZero⟩

/-- A function declaring min-replicas 2 via its label, as in
Test_Replicas. -/
def fnMin2 : Function :=
  { fnZero with spec := { specZero with labels := some [(LabelMinReplicas, "2")] } }

/-- The zero-valued statefulset (Go `&appsv1.StatefulSet{}`). -/
def ssZero : StatefulSet :=
  ⟨"", "", [], ⟨none, 0, ⟨[], [], ⟨[], [], []⟩⟩⟩⟩

/-- A statefulset with the given replica count set. -/
def ssRep (n : Int) : StatefulSet :=
  { ssZero with spec := { ssZero.spec with replicas := some n } }

/-- The basic single test container (`testfunc` / `alpine:latest`). -/
def basicContainer : Container :=
  ⟨"testfunc", "alpine:latest", "", [], [], Resources.empty, none, none, none, []⟩

/-- The basic single-container pod of the secrets tests. -/
def basicPod : PodSpec := ⟨[basicContainer], [], []⟩

/-- The pod of the secrets tests that already holds two duplicated
secret-projection volumes and mounts. -/
def dupPod : PodSpec :=
  ⟨[{ basicContainer with volumeMounts :=
        [⟨"testfunc-projected-secrets", "", false⟩, ⟨"testfunc-projected-secrets", "", false⟩] }],
    [⟨"testfunc-projected-secrets", VolumeSource.other⟩,
      ⟨"testfunc-projected-secrets", VolumeSource.other⟩],
    []⟩

/-- The resolved secrets of the test files: a docker pull secret and an
opaque secret whose single data key is `filename`. -/
def resolvedSecrets : List (String × SecretDescriptor) :=
  [("pullsecret", ⟨SecretKind.pull, []⟩), ("testsecret", ⟨SecretKind.generic, ["filename"]⟩)]

/-- A concrete quantity parser for witnesses: decimal naturals. -/
def natParse : String → Option Nat := fun s =>
  match s.data with
  | [] => none
  | cs => parseNatAux cs 0

/-- The identity profile transformation, used when no profile is in
play. -/
def noProfile : Profile → PodSpec → PodSpec := fun _ p => p

/-- A concrete spec encoder for witnesses. -/
def encZero : FunctionSpec → String := fun _ => "spec-json"

/-- A synthesis environment in which every collaborator succeeds and no
profile is declared. -/
def envSynthOk : SynthEnv := ⟨Except.ok (none, none), Except.ok [], Except.ok []⟩

/-- A function requesting one secret that the resolver does not cover. -/
def fnMissingSecret : Function :=
  { fnZero with spec := { specZero with name := "testfunc", secrets := ["missing"] } }

/-- A statefulset as fetched by the update path: three replicas and the
basic container. -/
def ssFetched3 : StatefulSet :=
  ⟨"testfunc", "openfaas-fn", [],
    ⟨some 3, 0, ⟨[], [], ⟨[basicContainer], [], []⟩⟩⟩⟩

/-- An update environment in which every collaborator succeeds. -/
def envUpdOk : UpdateEnv :=
  ⟨Except.ok ssFetched3, Except.ok resolvedSecrets, Except.ok (none, none),
    Except.ok [], Except.ok [], "42", Except.ok ()⟩

/-- An update request declaring min-replicas 2, fewer than the existing
three replicas of ssFetched3. -/
def reqMin2 : FunctionDeployment :=
  ⟨"testfunc", "alpine:latest", "", [], some [(LabelMinReplicas, "2")], [],
    none, none, false, []⟩

/-- An update request with a malformed memory limit. -/
def reqBadResources : FunctionDeployment :=
  ⟨"testfunc", "alpine:latest", "", [], none, [],
    some ⟨"10x!", ""⟩, none, false, []⟩

/-- A function spec with the same malformed memory limit, for the
synthesis side of the asymmetry. -/
def fnBadResources : Function :=
  { fnZero with spec := { specZero with name := "testfunc", limits := some ⟨"10x!", ""⟩ } }

/-- A statefulset carrying the marker label with zero replicas
(scenario D of the spec). -/
def ssMarker0 : StatefulSet :=
  ⟨"withlabel", "fn", [],
    ⟨some 0, 0, ⟨[("faas_function", "withlabel")], [], ⟨[], [], []⟩⟩⟩⟩

/-- A statefulset with zero replicas but no marker label. -/
def ssNoMarker0 : StatefulSet :=
  ⟨"nolabel", "fn", [], ⟨some 0, 0, ⟨[], [], ⟨[], [], []⟩⟩⟩⟩

/-- A statefulset carrying the marker label with seven replicas. -/
def ssMarker7 : StatefulSet :=
  ⟨"withlabel", "fn", [],
    ⟨some 7, 0, ⟨[("faas_function", "withlabel")], [], ⟨[], [], []⟩⟩⟩⟩

/-- An update environment identical to envUpdOk except that the secrets
fetch fails. -/
def envUpdSecErr : UpdateEnv :=
  ⟨Except.ok ssFetched3, Except.error "secrets fetch failed", Except.ok (none, none),
    Except.ok [], Except.ok [], "42", Except.ok ()⟩

/-- An update request asking for a secret the resolver does not cover. -/
def reqMissingSecret : FunctionDeployment :=
  ⟨"testfunc", "alpine:latest", "", [], none, ["missing"], none, none, false, []⟩

/-- An update environment whose fetched statefulset has an empty
container list and whose write succeeds. -/
def envUpdEmpty : UpdateEnv :=
  ⟨Except.ok ssZero, Except.ok [], Except.ok (none, none),
    Except.ok [], Except.ok [], "u", Except.ok ()⟩

/-- A concrete decoder for change-detector witnesses: two distinct
serializations decode to the zero spec, everything else is rejected. -/
def decodeTwo : String → Option FunctionSpec := fun s =>
  if s = "a" || s = "b" then some specZero else none

/-- A zero statefulset whose spec-signature annotation holds the given
string. -/
def ssAnno (s : String) : StatefulSet :=
  { ssZero with annotations := [(annotationFunctionSpec, s)] }

/-- The toggle-test pod: container with a pre-existing security context
and duplicated temp volumes and mounts. -/
def togglePod : PodSpec :=
  ⟨[{ basicContainer with
        securityContext := some ⟨some true, none, none⟩,
        volumeMounts := [tempMount, tempMount] }],
    [tempVolume, tempVolume], []⟩

/-- Decidable equality of Except values with decidable components, so
that concrete runs of the fallible operations can be checked by
`decide`. -/
instance {ε α : Type} [DecidableEq ε] [DecidableEq α] : DecidableEq (Except ε α) := fun x y =>
  match x, y with
  | Except.ok a, Except.ok b =>
    if h : a = b then isTrue (by rw [h])
    else isFalse (by intro hh; cases hh; exact h rfl)
  | Except.error a, Except.error b =>
    if h : a = b then isTrue (by rw [h])
    else isFalse (by intro hh; cases hh; exact h rfl)
  | Except.ok _, Except.error _ => isFalse (by intro hh; cases hh)
  | Except.error _, Except.ok _ => isFalse (by intro hh; cases hh)

/-! ## Helper lemmas -/

theorem lookup_upsert_self (m : SMap) (k v : String) :
    List.lookup k (upsert m k v) = some v := by
  induction m with
  | nil => simp [upsert, List.lookup]
  | cons kv rest ih =>
    obtain ⟨k', v'⟩ := kv
    by_cases h : k' = k
    · simp [upsert, h, List.lookup]
    · simp only [upsert, if_neg h, List.lookup]
      have : (k == k') = false := by
        simp [beq_iff_eq]
        exact fun hk => h hk.symm
      simp [this, ih]

theorem lookup_upsert_ne (m : SMap) (k k' v : String) (h : k' ≠ k) :
    List.lookup k' (upsert m k v) = List.lookup k' m := by
  induction m with
  | nil =>
    have hb : (k' == k) = false := by simp [beq_iff_eq, h]
    simp [upsert, List.lookup, hb]
  | cons kv rest ih =>
    obtain ⟨k0, v0⟩ := kv
    by_cases h0 : k0 = k
    · subst h0
      simp only [upsert, if_pos rfl, List.lookup]
      have : (k' == k0) = false := by simp [beq_iff_eq, h]
      simp [this]
    · simp only [upsert, if_neg h0, List.lookup]
      cases hbe : (k' == k0) <;> simp [ih]

theorem lookup_mergeInto_of_notin (src : SMap) (base : SMap) (k : String)
    (h : ∀ kv ∈ src, kv.1 ≠ k) :
    List.lookup k (mergeInto base src) = List.lookup k base := by
  induction src generalizing base with
  | nil => rfl
  | cons kv rest ih =>
    have hstep : mergeInto base (kv :: rest) = mergeInto (upsert base kv.1 kv.2) rest := by
      simp [mergeInto]
    rw [hstep, ih _ (fun x hx => h x (List.mem_cons_of_mem kv hx))]
    exact lookup_upsert_ne base kv.1 k kv.2 (Ne.symm (h kv (List.mem_cons_self kv rest)))

theorem filter_ne_then_eq {α : Type} (f : α → String) (n : String) (l : List α) :
    (l.filter (fun a => f a ≠ n)).filter (fun a => f a == n) = [] := by
  induction l with
  | nil => rfl
  | cons a rest ih =>
    by_cases h : f a = n
    · simp [List.filter_cons, h, ih]
    · simp [List.filter_cons, h, ih]

theorem filter_ne_idem {α : Type} (f : α → String) (n : String) (l : List α) :
    (l.filter (fun a => f a ≠ n)).filter (fun a => f a ≠ n)
      = l.filter (fun a => f a ≠ n) := by
  induction l with
  | nil => rfl
  | cons a rest ih =>
    by_cases h : f a = n
    · simp [List.filter_cons, h, ih]
    · simp [List.filter_cons, h, ih]

theorem removeVolume_eq_filter (n : String) (vs : List Volume) :
    removeVolume n vs = vs.filter (fun v => v.name ≠ n) := rfl

theorem removeVolumeMount_eq_filter (n : String) (ms : List VolumeMount) :
    removeVolumeMount n ms = ms.filter (fun m => m.name ≠ n) := rfl

theorem removeVolume_append (n : String) (vs ws : List Volume) :
    removeVolume n (vs ++ ws) = removeVolume n vs ++ removeVolume n ws := by
  simp [removeVolume]

theorem removeVolumeMount_append (n : String) (ms ns : List VolumeMount) :
    removeVolumeMount n (ms ++ ns) = removeVolumeMount n ms ++ removeVolumeMount n ns := by
  simp [removeVolumeMount]

theorem removeVolume_self_singleton (n : String) (src : VolumeSource) :
    removeVolume n [⟨n, src⟩] = [] := by
  simp [removeVolume]

theorem removeVolumeMount_self_singleton (n : String) (path : String) (ro : Bool) :
    removeVolumeMount n [⟨n, path, ro⟩] = [] := by
  simp [removeVolumeMount]

theorem removeVolume_idem (n : String) (vs : List Volume) :
    removeVolume n (removeVolume n vs) = removeVolume n vs :=
  filter_ne_idem Volume.name n vs

theorem removeVolumeMount_idem (n : String) (ms : List VolumeMount) :
    removeVolumeMount n (removeVolumeMount n ms) = removeVolumeMount n ms :=
  filter_ne_idem VolumeMount.name n ms

theorem filter_applySecretMounts (service : String) (requested : List String) (c : Container) :
    (applySecretMounts service requested c).volumeMounts.filter
        (fun m => m.name == secretVolumeName service)
      = (if requested.isEmpty then [] else [secretMount service]) := by
  cases hS : requested.isEmpty <;>
    simp [applySecretMounts, hS, removeVolumeMount_eq_filter, List.filter_append,
      filter_ne_then_eq VolumeMount.name, secretMount]

theorem applySecretMounts_idem (service : String) (requested : List String) (c : Container) :
    applySecretMounts service requested (applySecretMounts service requested c)
      = applySecretMounts service requested c := by
  cases hS : requested.isEmpty <;>
    simp [applySecretMounts, hS, removeVolumeMount_idem, removeVolumeMount_append,
      removeVolumeMount_self_singleton, secretMount]

theorem filter_applySecretVolumes (service : String) (requested : List String)
    (ps : List VolumeProjection) (vs : List Volume) :
    (applySecretVolumes service requested ps vs).filter
        (fun v => v.name == secretVolumeName service)
      = (if requested.isEmpty then []
         else [⟨secretVolumeName service, VolumeSource.projected ps⟩]) := by
  cases hS : requested.isEmpty <;>
    simp [applySecretVolumes, hS, removeVolume_eq_filter, List.filter_append,
      filter_ne_then_eq Volume.name]

theorem applySecretVolumes_idem (service : String) (requested : List String)
    (ps : List VolumeProjection) (vs : List Volume) :
    applySecretVolumes service requested ps (applySecretVolumes service requested ps vs)
      = applySecretVolumes service requested ps vs := by
  cases hS : requested.isEmpty <;>
    simp [applySecretVolumes, hS, removeVolume_idem, removeVolume_append,
      removeVolume_self_singleton]

theorem projectionsFor_isOk (S : List String) (resolved : List (String × SecretDescriptor))
    (h : ∀ n ∈ S, (List.lookup n resolved).isSome) :
    ∃ ps, projectionsFor S resolved = Except.ok ps := by
  induction S with
  | nil => exact ⟨[], rfl⟩
  | cons n rest ih =>
    obtain ⟨sd, hsd⟩ := Option.isSome_iff_exists.mp (h n (List.mem_cons_self n rest))
    obtain ⟨ps, hps⟩ := ih (fun m hm => h m (List.mem_cons_of_mem n hm))
    refine ⟨match sd.kind with
      | SecretKind.pull => ps
      | SecretKind.generic => ⟨n, sd.keys⟩ :: ps, ?_⟩
    simp [projectionsFor, hsd, hps, Except.map]

theorem projectionsFor_miss (S : List String) (resolved : List (String × SecretDescriptor))
    (n : String) (hn : n ∈ S) (hmiss : List.lookup n resolved = none) :
    ∃ e, projectionsFor S resolved = Except.error e := by
  induction S with
  | nil => cases hn
  | cons m rest ih =>
    rcases List.mem_cons.mp hn with heq | hmem
    · subst heq
      exact ⟨"required secret " ++ n ++ " was not found in the cluster",
        by simp [projectionsFor, hmiss]⟩
    · cases hm : List.lookup m resolved with
      | none =>
        exact ⟨"required secret " ++ m ++ " was not found in the cluster",
          by simp [projectionsFor, hm]⟩
      | some sd =>
        obtain ⟨e, he⟩ := ih hmem
        exact ⟨e, by simp [projectionsFor, hm, he, Except.map]⟩

theorem configureSecrets_miss (service : String) (S : List String)
    (resolved : List (String × SecretDescriptor)) (n : String)
    (hn : n ∈ S) (hmiss : List.lookup n resolved = none) :
    ∃ e, ∀ p : PodSpec, configureSecrets service S resolved p = Except.error e := by
  obtain ⟨e, he⟩ := projectionsFor_miss S resolved n hn hmiss
  exact ⟨e, fun p => by simp [configureSecrets, he, Except.map]⟩

theorem configureReadOnlyRootFsCore_resources (flag : Bool) (c : Container)
    (vols : List Volume) :
    (configureReadOnlyRootFsCore flag c vols).1.resources = c.resources := by
  cases flag <;> cases hsc : c.securityContext <;>
    simp [configureReadOnlyRootFsCore, hsc]

theorem configureContainerUserIdCore_resources (b : Bool) (c : Container) :
    (configureContainerUserIdCore b c).resources = c.resources := by
  simp [configureContainerUserIdCore]

theorem applySecretMounts_resources (service : String) (requested : List String)
    (c : Container) :
    (applySecretMounts service requested c).resources = c.resources := by
  simp [applySecretMounts]

theorem configureSecrets_ok_containers (service : String) (requested : List String)
    (resolved : List (String × SecretDescriptor)) (p p' : PodSpec)
    (h : configureSecrets service requested resolved p = Except.ok p') :
    p'.containers = p.containers.map (applySecretMounts service requested) := by
  unfold configureSecrets at h
  cases hps : projectionsFor requested resolved with
  | error e => rw [hps] at h; cases h
  | ok ps =>
    rw [hps] at h
    cases h
    rfl

/-! ## Model validation against the in-repo test scenarios -/

/-- The modelled replica policy reproduces all six scenarios of
Test_Replicas (replicas_test.go), including the scenario that pins the
preservation of an existing zero replica count under a declared
minimum. -/
theorem getReplicas_matches_Test_Replicas :
    getReplicas fnZero none = none ∧
    getReplicas fnZero (some ssZero) = none ∧
    getReplicas fnMin2 (some ssZero) = some 2 ∧
    getReplicas fnMin2 (some (ssRep 1)) = some 2 ∧
    getReplicas fnMin2 (some (ssRep 3)) = some 3 ∧
    getReplicas fnZero (some (ssRep 3)) = some 3 ∧
    getReplicas fnMin2 (some (ssRep 0)) = some 0 := by
  refine ⟨rfl, rfl, ?_, ?_, ?_, rfl, ?_⟩ <;> decide

/-- The modelled secret projection reproduces the scenarios of
Test_FunctionFactory_ConfigureSecrets (secrets_factory_test.go): empty
request leaves no volume and no mount, duplicates are all removed, a
mixed pull/generic request yields exactly the single projected volume
whose first source's first item key is `filename` plus one mount at the
secrets mount path, and the same holds when starting from the polluted
pod. -/
theorem configureSecrets_matches_factory_tests :
    configureSecrets "testfunc" [] resolvedSecrets basicPod = Except.ok basicPod ∧
    configureSecrets "testfunc" [] resolvedSecrets dupPod = Except.ok basicPod ∧
    configureSecrets "testfunc" ["pullsecret", "testsecret"] resolvedSecrets basicPod
      = Except.ok
          ⟨[{ basicContainer with volumeMounts :=
                [⟨"testfunc-projected-secrets", secretsMountPath, true⟩] }],
            [⟨"testfunc-projected-secrets",
              VolumeSource.projected [⟨"testsecret", ["filename"]⟩]⟩], []⟩ ∧
    configureSecrets "testfunc" ["pullsecret", "testsecret"] resolvedSecrets dupPod
      = Except.ok
          ⟨[{ basicContainer with volumeMounts :=
                [⟨"testfunc-projected-secrets", secretsMountPath, true⟩] }],
            [⟨"testfunc-projected-secrets",
              VolumeSource.projected [⟨"testsecret", ["filename"]⟩]⟩], []⟩ := by
  refine ⟨?_, ?_, ?_, ?_⟩ <;> decide

/-- The modelled read-only-root-filesystem pass reproduces the four
toggle tests of securityContext_test.go on the basic pod and on the pod
already enabled with a temp volume and mount. -/
theorem configureReadOnlyRootFs_matches_tests :
    configureReadOnlyRootFilesystem false basicPod
      = some ⟨[{ basicContainer with
            securityContext := some ⟨some false, none, none⟩ }], [], []⟩ ∧
    configureReadOnlyRootFilesystem true basicPod
      = some ⟨[{ basicContainer with
            securityContext := some ⟨some true, none, none⟩,
            volumeMounts := [tempMount] }], [tempVolume], []⟩ ∧
    configureReadOnlyRootFilesystem false
        ⟨[{ basicContainer with
              securityContext := some ⟨some true, none, none⟩,
              volumeMounts := [tempMount] }], [tempVolume], []⟩
      = some ⟨[{ basicContainer with
            securityContext := some ⟨some false, none, none⟩ }], [], []⟩ ∧
    configureReadOnlyRootFilesystem true
        ⟨[{ basicContainer with
              securityContext := some ⟨some true, none, none⟩,
              volumeMounts := [tempMount] }], [tempVolume], []⟩
      = some ⟨[{ basicContainer with
            securityContext := some ⟨some true, none, none⟩,
            volumeMounts := [tempMount] }], [tempVolume], []⟩ := by
  refine ⟨?_, ?_, ?_, ?_⟩ <;> decide

/-! ## Claim theorems -/

/-- Claim C3: for every observed statefulset, applyValidation behaves as
follows: with the faas_function marker label and a non-nil replica
count, a count of exactly 0 triggers a corrective write targeting 1, a
count above the configured ceiling triggers a corrective write
targeting the ceiling, and a count in the closed interval from 1 to the
ceiling triggers no write; a statefulset lacking the marker label, or
with a nil replica count, is never written to, regardless of its
replica value, including during the startup full-list pass. -/
theorem C3_scale_guard_law :
    (∀ (maxR : Int) (write : WriteResult) (ss : StatefulSet) (v : String),
        List.lookup "faas_function" ss.spec.template.labels = some v →
        ss.spec.replicas = some 0 →
        (applyValidation maxR write ss).writes = [setReplicas ss 1]) ∧
    (∀ (maxR : Int) (write : WriteResult) (ss : StatefulSet) (v : String) (r : Int),
        List.lookup "faas_function" ss.spec.template.labels = some v →
        ss.spec.replicas = some r → 0 < maxR → maxR < r →
        (applyValidation maxR write ss).writes = [setReplicas ss maxR]) ∧
    (∀ (maxR : Int) (write : WriteResult) (ss : StatefulSet) (v : String) (r : Int),
        List.lookup "faas_function" ss.spec.template.labels = some v →
        ss.spec.replicas = some r → 1 ≤ r → r ≤ maxR →
        applyValidation maxR write ss = ⟨none, []⟩) ∧
    (∀ (maxR : Int) (write : WriteResult) (ss : StatefulSet),
        List.lookup "faas_function" ss.spec.template.labels = none →
        applyValidation maxR write ss = ⟨none, []⟩) ∧
    (∀ (maxR : Int) (write : WriteResult) (ss : StatefulSet),
        ss.spec.replicas = none →
        applyValidation maxR write ss = ⟨none, []⟩) ∧
    (∀ (maxR : Int) (writeFor : StatefulSet → WriteResult) (list : List StatefulSet),
        (∀ ss ∈ list, List.lookup "faas_function" ss.spec.template.labels = none ∨
            ss.spec.replicas = none) →
        ∀ out ∈ startupSweep maxR writeFor list, out.writes = []) := by
  refine ⟨?_, ?_, ?_, ?_, ?_, ?_⟩
  · intro maxR write ss v hmark hrep
    cases write <;> simp [applyValidation, scaleTarget, hmark, hrep]
  · intro maxR write ss v r hmark hrep hpos hlt
    have hne : ¬ r = 0 := by omega
    cases write <;> simp [applyValidation, scaleTarget, hmark, hrep, hne, hlt]
  · intro maxR write ss v r hmark hrep hone hle
    have hne : ¬ r = 0 := by omega
    have hnlt : ¬ maxR < r := by omega
    cases write <;> simp [applyValidation, scaleTarget, hmark, hrep, hne, hnlt]
  · intro maxR write ss hmark
    cases hrep : ss.spec.replicas <;>
      simp [applyValidation, scaleTarget, hmark, hrep]
  · intro maxR write ss hrep
    simp [applyValidation, scaleTarget, hrep]
  · intro maxR writeFor list hprop out hout
    simp only [startupSweep, List.mem_map] at hout
    obtain ⟨ss, hss, rfl⟩ := hout
    rcases hprop ss hss with hmark | hrep
    · cases hrep : ss.spec.replicas <;>
        simp [applyValidation, scaleTarget, hmark, hrep]
    · simp [applyValidation, scaleTarget, hrep]

/-- Witness for C3 at concrete inputs: the marked zero-replica
statefulset is corrected to one, the marked seven-replica one is clamped
to the ceiling five, a marked in-bounds one is untouched, the unmarked
zero-replica one and the nil-replica one are never written, and neither
is the unmarked one during a startup sweep. -/
theorem C3_scale_guard_law_witness :
    (applyValidation 5 WriteResult.ok ssMarker0).writes = [setReplicas ssMarker0 1] ∧
    (applyValidation 5 WriteResult.ok ssMarker7).writes = [setReplicas ssMarker7 5] ∧
    applyValidation 5 WriteResult.ok (setReplicas ssMarker7 3) = ⟨none, []⟩ ∧
    applyValidation 5 WriteResult.ok ssNoMarker0 = ⟨none, []⟩ ∧
    applyValidation 5 WriteResult.ok ssZero = ⟨none, []⟩ ∧
    (applyValidation 5 (WriteResult.ok) ssNoMarker0).writes = [] := by
  refine ⟨?_, ?_, ?_, ?_, ?_, ?_⟩
  · exact C3_scale_guard_law.1 5 WriteResult.ok ssMarker0 "withlabel" (by decide) (by decide)
  · exact C3_scale_guard_law.2.1 5 WriteResult.ok ssMarker7 "withlabel" 7
      (by decide) (by decide) (by decide) (by decide)
  · exact C3_scale_guard_law.2.2.1 5 WriteResult.ok (setReplicas ssMarker7 3) "withlabel" 3
      (by decide) (by decide) (by decide) (by decide)
  · exact C3_scale_guard_law.2.2.2.1 5 WriteResult.ok ssNoMarker0 (by decide)
  · exact C3_scale_guard_law.2.2.2.2.1 5 WriteResult.ok ssZero (by decide)
  · exact C3_scale_guard_law.2.2.2.2.2 5 (fun _ => WriteResult.ok) [ssNoMarker0]
      (by intro ss hss
          simp only [List.mem_singleton] at hss
          subst hss
          exact Or.inl (by decide))
      (applyValidation 5 WriteResult.ok ssNoMarker0)
      (by simp [startupSweep])

/-- Claim C8: when the corrective conditional write fails with a version
conflict, the guard treats the attempt as success: no error is returned
and no immediate retry is issued (at most one write per observation);
every other write failure is surfaced as an error. -/
theorem C8_conflict_abandoned :
    (∀ (maxR : Int) (ss : StatefulSet) (t : Int),
        scaleTarget maxR ss = some t →
        applyValidation maxR WriteResult.conflict ss = ⟨none, [setReplicas ss t]⟩) ∧
    (∀ (maxR : Int) (ss : StatefulSet) (t : Int) (msg : String),
        scaleTarget maxR ss = some t →
        applyValidation maxR (WriteResult.failed msg) ss = ⟨some msg, [setReplicas ss t]⟩) ∧
    (∀ (maxR : Int) (write : WriteResult) (ss : StatefulSet),
        (applyValidation maxR write ss).writes.length ≤ 1) := by
  refine ⟨?_, ?_, ?_⟩
  · intro maxR ss t h
    simp [applyValidation, h]
  · intro maxR ss t msg h
    simp [applyValidation, h]
  · intro maxR write ss
    cases h : scaleTarget maxR ss <;> cases write <;> simp [applyValidation, h]

/-- Witness for C8 at a concrete input: the marked zero-replica
statefulset needs a corrective write; under a conflict the guard
surfaces no error and attempts exactly one write, under another failure
it surfaces the message. -/
theorem C8_conflict_abandoned_witness :
    applyValidation 5 WriteResult.conflict ssMarker0 = ⟨none, [setReplicas ssMarker0 1]⟩ ∧
    applyValidation 5 (WriteResult.failed "boom") ssMarker0
      = ⟨some "boom", [setReplicas ssMarker0 1]⟩ ∧
    (applyValidation 5 WriteResult.conflict ssMarker0).writes.length ≤ 1 := by
  refine ⟨?_, ?_, ?_⟩
  · exact C8_conflict_abandoned.1 5 ssMarker0 1 (by decide)
  · exact C8_conflict_abandoned.2.1 5 ssMarker0 1 "boom" (by decide)
  · exact C8_conflict_abandoned.2.2 5 WriteResult.conflict ssMarker0

/-- Claim C7: statefulsetNeedsUpdate returns true whenever the stored
spec-signature annotation is absent or empty or fails to decode; when
the stored signature decodes, it returns true exactly when the decoded
previous spec is structurally unequal to the incoming spec, so a
differently serialized but structurally equal spec yields false. -/
theorem C7_change_detector :
    (∀ (decode : String → Option FunctionSpec) (f : Function) (ss : StatefulSet),
        List.lookup annotationFunctionSpec ss.annotations = none →
        statefulsetNeedsUpdate decode f ss = true) ∧
    (∀ (decode : String → Option FunctionSpec) (f : Function) (ss : StatefulSet),
        List.lookup annotationFunctionSpec ss.annotations = some "" →
        statefulsetNeedsUpdate decode f ss = true) ∧
    (∀ (decode : String → Option FunctionSpec) (f : Function) (ss : StatefulSet) (s : String),
        List.lookup annotationFunctionSpec ss.annotations = some s → s ≠ "" →
        decode s = none → statefulsetNeedsUpdate decode f ss = true) ∧
    (∀ (decode : String → Option FunctionSpec) (f : Function) (ss : StatefulSet)
        (s : String) (prev : FunctionSpec),
        List.lookup annotationFunctionSpec ss.annotations = some s → s ≠ "" →
        decode s = some prev →
        (statefulsetNeedsUpdate decode f ss = false ↔ prev = f.spec)) := by
  refine ⟨?_, ?_, ?_, ?_⟩
  · intro decode f ss h
    simp [statefulsetNeedsUpdate, h]
  · intro decode f ss h
    simp [statefulsetNeedsUpdate, h]
  · intro decode f ss s h hne hdec
    simp [statefulsetNeedsUpdate, h, hne, hdec]
  · intro decode f ss s prev h hne hdec
    by_cases heq : prev = f.spec <;>
      simp [statefulsetNeedsUpdate, h, hne, hdec, heq]

/-- Witness for C7 at concrete inputs: an absent signature and an
undecodable signature both mean update; the two distinct serializations
`a` and `b` of the zero spec both mean no update (structural, not raw
string, comparison); the same stored signature against a structurally
different incoming spec means update. -/
theorem C7_change_detector_witness :
    statefulsetNeedsUpdate decodeTwo fnZero ssZero = true ∧
    statefulsetNeedsUpdate decodeTwo fnZero (ssAnno "junk") = true ∧
    statefulsetNeedsUpdate decodeTwo fnZero (ssAnno "a") = false ∧
    statefulsetNeedsUpdate decodeTwo fnZero (ssAnno "b") = false ∧
    statefulsetNeedsUpdate decodeTwo fnMin2 (ssAnno "a") = true := by
  refine ⟨?_, ?_, ?_, ?_, ?_⟩
  · exact C7_change_detector.1 decodeTwo fnZero ssZero (by decide)
  · exact C7_change_detector.2.2.1 decodeTwo fnZero (ssAnno "junk") "junk"
      (by decide) (by decide) (by decide)
  · exact (C7_change_detector.2.2.2 decodeTwo fnZero (ssAnno "a") "a" specZero
      (by decide) (by decide) (by decide)).mpr (by decide)
  · exact (C7_change_detector.2.2.2 decodeTwo fnZero (ssAnno "b") "b" specZero
      (by decide) (by decide) (by decide)).mpr (by decide)
  · have h := C7_change_detector.2.2.2 decodeTwo fnMin2 (ssAnno "a") "a" specZero
      (by decide) (by decide) (by decide)
    cases hb : statefulsetNeedsUpdate decodeTwo fnMin2 (ssAnno "a") with
    | true => rfl
    | false => exact absurd (h.mp hb) (by decide)

/-- Claim C4: after every application of ConfigureReadOnlyRootFilesystem
to a workload with a first container — whatever security context, temp
volume or duplicated temp volumes it previously had — the pod holds
exactly one EmptyDir-backed volume named temp, and the first container
exactly one read-write mount of it at /tmp, when the flag is true, and
none of either when it is false; and the container's security-context
read-only-root-filesystem field equals the flag.  Because the statement
quantifies over every starting pod, it applies to each step of any
toggle sequence, in particular true, then false, then true. -/
theorem C4_readonly_root_filesystem :
    ∀ (flag : Bool) (p : PodSpec) (c : Container) (rest : List Container),
      p.containers = c :: rest →
      ∃ (p' : PodSpec) (c' : Container),
        configureReadOnlyRootFilesystem flag p = some p' ∧
        p'.containers = c' :: rest ∧
        p'.volumes.filter (fun v => v.name == "temp")
          = (if flag then [tempVolume] else []) ∧
        c'.volumeMounts.filter (fun m => m.name == "temp")
          = (if flag then [tempMount] else []) ∧
        ∃ sc, c'.securityContext = some sc ∧ sc.readOnlyRootFilesystem = some flag := by
  intro flag p c rest h
  refine ⟨{ p with
      containers := (configureReadOnlyRootFsCore flag c p.volumes).1 :: rest,
      volumes := (configureReadOnlyRootFsCore flag c p.volumes).2 },
    (configureReadOnlyRootFsCore flag c p.volumes).1,
    by simp [configureReadOnlyRootFilesystem, h], rfl, ?_, ?_, ?_⟩
  · cases flag <;>
      cases hsc : c.securityContext <;>
        simp [configureReadOnlyRootFilesystem, configureReadOnlyRootFsCore, h, hsc,
          removeVolume_eq_filter, List.filter_append, filter_ne_then_eq, tempVolume]
  · cases flag <;>
      cases hsc : c.securityContext <;>
        simp [configureReadOnlyRootFsCore, hsc,
          removeVolumeMount_eq_filter, List.filter_append, filter_ne_then_eq, tempMount]
  · cases flag <;>
      cases hsc : c.securityContext <;>
        simp [configureReadOnlyRootFsCore, hsc]

/-- Witness for C4 at a concrete input: the polluted toggle pod (context
already set, duplicated temp volumes and mounts) configured with the
flag true satisfies the invariant. -/
theorem C4_readonly_root_filesystem_witness :
    ∃ (p' : PodSpec) (c' : Container),
      configureReadOnlyRootFilesystem true togglePod = some p' ∧
      p'.containers = c' :: [] ∧
      p'.volumes.filter (fun v => v.name == "temp") = [tempVolume] ∧
      c'.volumeMounts.filter (fun m => m.name == "temp") = [tempMount] ∧
      ∃ sc, c'.securityContext = some sc ∧ sc.readOnlyRootFilesystem = some true := by
  have h := C4_readonly_root_filesystem true togglePod
    ({ basicContainer with
        securityContext := some ⟨some true, none, none⟩,
        volumeMounts := [tempMount, tempMount] }) [] rfl
  simpa using h

/-- Claim C2: for every service, requested secret list S covered by the
resolved mapping, and starting pod (even one holding duplicated
projection volumes and mounts), the secret projection succeeds and the
result holds exactly one volume named `service-projected-secrets` and,
in every container, exactly one read-only mount of it at the secrets
mount path, when S is non-empty, and none of either when S is empty;
and a second application with identical inputs returns the result
unchanged (idempotence, hence no accumulation). -/
theorem C2_secret_projection :
    ∀ (svc : String) (S : List String) (resolved : List (String × SecretDescriptor)) (p : PodSpec),
      (∀ n ∈ S, (List.lookup n resolved).isSome) →
      ∃ (p' : PodSpec) (ps : List VolumeProjection),
        configureSecrets svc S resolved p = Except.ok p' ∧
        p'.volumes.filter (fun v => v.name == secretVolumeName svc)
          = (if S.isEmpty then []
             else [⟨secretVolumeName svc, VolumeSource.projected ps⟩]) ∧
        (∀ c' ∈ p'.containers,
          c'.volumeMounts.filter (fun m => m.name == secretVolumeName svc)
            = (if S.isEmpty then [] else [secretMount svc])) ∧
        configureSecrets svc S resolved p' = Except.ok p' := by
  intro svc S resolved p hcov
  obtain ⟨ps, hps⟩ := projectionsFor_isOk S resolved hcov
  have hrun : ∀ q : PodSpec, configureSecrets svc S resolved q = Except.ok
      { q with
        volumes := applySecretVolumes svc S ps q.volumes,
        containers := q.containers.map (applySecretMounts svc S) } := by
    intro q
    simp [configureSecrets, hps, Except.map]
  refine ⟨_, ps, hrun p, ?_, ?_, ?_⟩
  · exact filter_applySecretVolumes svc S ps p.volumes
  · intro c' hc'
    simp only [List.mem_map] at hc'
    obtain ⟨c, _, rfl⟩ := hc'
    exact filter_applySecretMounts svc S c
  · rw [hrun]
    simp only [applySecretVolumes_idem, List.map_map]
    have hmaps : p.containers.map (applySecretMounts svc S ∘ applySecretMounts svc S)
        = p.containers.map (applySecretMounts svc S) :=
      List.map_congr_left (fun c _ => applySecretMounts_idem svc S c)
    rw [hmaps]

/-- Witness for C2 at a concrete input: projecting the pull and generic
test secrets onto the pod already holding duplicated projection volumes
and mounts. -/
theorem C2_secret_projection_witness :
    ∃ (p' : PodSpec) (ps : List VolumeProjection),
      configureSecrets "testfunc" ["pullsecret", "testsecret"] resolvedSecrets dupPod
        = Except.ok p' ∧
      p'.volumes.filter (fun v => v.name == secretVolumeName "testfunc")
        = [⟨secretVolumeName "testfunc", VolumeSource.projected ps⟩] ∧
      (∀ c' ∈ p'.containers,
        c'.volumeMounts.filter (fun m => m.name == secretVolumeName "testfunc")
          = [secretMount "testfunc"]) ∧
      configureSecrets "testfunc" ["pullsecret", "testsecret"] resolvedSecrets p'
        = Except.ok p' := by
  have h := C2_secret_projection "testfunc" ["pullsecret", "testsecret"] resolvedSecrets dupPod
    (by decide)
  simpa using h

/-- Claim C10: the two Containers[0] configuration passes are undefined
exactly on a workload with an empty container list; under the
one-container precondition the access is unreachable: synthesis always
constructs exactly one container, and the update path skips both passes
(writing the fetched object back unchanged) when the fetched container
list is empty, invoking them only in its non-empty branch. -/
theorem C10_first_container_precondition :
    (∀ (flag : Bool) (p : PodSpec),
        configureReadOnlyRootFilesystem flag p = none ↔ p.containers = []) ∧
    (∀ (b : Bool) (p : PodSpec),
        configureContainerUserID b p = none ↔ p.containers = []) ∧
    (∀ (parseQ : String → Option Nat) (encode : FunctionSpec → String) (snr : Bool)
        (applyP removeP : Profile → PodSpec → PodSpec) (env : SynthEnv) (f : Function)
        (ex : Option StatefulSet) (secrets : List (String × SecretDescriptor)),
        env.profilesToRemove = Except.ok [] → env.profilesToApply = Except.ok [] →
        (newStatefulSet parseQ encode snr applyP removeP env f ex
          secrets).spec.template.spec.containers.length = 1) ∧
    (∀ (parseQ : String → Option Nat) (snr : Bool)
        (applyP removeP : Profile → PodSpec → PodSpec) (env : UpdateEnv)
        (request : FunctionDeployment) (ann : SMap) (ss0 : StatefulSet),
        env.fetched = Except.ok ss0 →
        ss0.spec.template.spec.containers = [] →
        env.writeResult = Except.ok () →
        updateStatefulSetSpec parseQ snr applyP removeP env request ann
          = ⟨Except.ok ss0, true⟩) := by
  refine ⟨?_, ?_, ?_, ?_⟩
  · intro flag p
    cases hc : p.containers <;> simp [configureReadOnlyRootFilesystem, hc]
  · intro b p
    cases hc : p.containers <;> simp [configureContainerUserID, hc]
  · intro parseQ encode snr applyP removeP env f ex secrets hrm hap
    have hpod : synthPodPreSecrets parseQ snr applyP removeP env f
        = { containers := [configureContainerUserIdCore snr
              (configureReadOnlyRootFsCore f.spec.readOnlyRootFilesystem
                (synthInitialContainer parseQ env f) []).1],
            volumes := (configureReadOnlyRootFsCore f.spec.readOnlyRootFilesystem
              (synthInitialContainer parseQ env f) []).2,
            nodeSelector := makeNodeSelector f.spec.constraints } := by
      simp [synthPodPreSecrets, hrm, hap]
    simp only [newStatefulSet]
    cases hcs : configureSecrets f.spec.name f.spec.secrets secrets
        (synthPodPreSecrets parseQ snr applyP removeP env f) with
    | error e => simp [hcs, hpod]
    | ok p1 =>
      have hc1 := configureSecrets_ok_containers _ _ _ _ _ hcs
      simp [hcs, hc1, hpod]
  · intro parseQ snr applyP removeP env request ann ss0 hf hc hw
    simp [updateStatefulSetSpec, hf, hc, hw]

/-- Witness for C10 at concrete inputs: the empty pod makes the pass
undefined, the synthesized workload for the zero function has exactly
one container, and the update of a fetched statefulset with no
containers writes it back unchanged. -/
theorem C10_first_container_precondition_witness :
    configureReadOnlyRootFilesystem true ⟨[], [], []⟩ = none ∧
    (newStatefulSet natParse encZero false noProfile noProfile envSynthOk fnZero none
      []).spec.template.spec.containers.length = 1 ∧
    updateStatefulSetSpec natParse false noProfile noProfile envUpdEmpty reqMin2 []
      = ⟨Except.ok ssZero, true⟩ := by
  refine ⟨?_, ?_, ?_⟩
  · exact (C10_first_container_precondition.1 true ⟨[], [], []⟩).mpr rfl
  · exact C10_first_container_precondition.2.2.1 natParse encZero false noProfile noProfile
      envSynthOk fnZero none [] rfl rfl
  · exact C10_first_container_precondition.2.2.2 natParse false noProfile noProfile
      envUpdEmpty reqMin2 [] ssZero rfl rfl rfl

/-- Claim C5: resource-quantity parse failures are handled
asymmetrically.  On the synthesis path a malformed field is left at its
default (the failure only flagged for a warning) and the synthesized
workload's container still carries the partially parsed resources; on
the update path the same failure aborts updateStatefulSetSpec with a
ValidationError mapped to HTTP 400, before the store write. -/
theorem C5_resource_parse_asymmetry :
    (∀ (parseQ : String → Option Nat) (mem cpu : String) (reqs : Option FunctionResources),
        mem ≠ "" → parseQ mem = none →
        (makeResources parseQ (some ⟨mem, cpu⟩) reqs).1.limitsMemory = none ∧
        (makeResources parseQ (some ⟨mem, cpu⟩) reqs).2 = true) ∧
    (∀ (parseQ : String → Option Nat) (encode : FunctionSpec → String) (snr : Bool)
        (applyP removeP : Profile → PodSpec → PodSpec) (env : SynthEnv) (f : Function)
        (ex : Option StatefulSet) (secrets : List (String × SecretDescriptor)),
        env.profilesToRemove = Except.ok [] → env.profilesToApply = Except.ok [] →
        (newStatefulSet parseQ encode snr applyP removeP env f ex
          secrets).spec.template.spec.containers.map (fun c => c.resources)
          = [(makeResources parseQ f.spec.limits f.spec.requests).1]) ∧
    (∀ (parseQ : String → Option Nat) (snr : Bool)
        (applyP removeP : Profile → PodSpec → PodSpec) (env : UpdateEnv)
        (request : FunctionDeployment) (ann : SMap) (ss0 : StatefulSet)
        (c : Container) (rest : List Container) (e : String),
        env.fetched = Except.ok ss0 →
        ss0.spec.template.spec.containers = c :: rest →
        createResources parseQ request.limits request.requests = Except.error e →
        updateStatefulSetSpec parseQ snr applyP removeP env request ann
          = ⟨Except.error (e, 400), false⟩) := by
  refine ⟨?_, ?_, ?_⟩
  · intro parseQ mem cpu reqs hne hfail
    simp [makeResources, fieldParse, hne, hfail]
  · intro parseQ encode snr applyP removeP env f ex secrets hrm hap
    have hpod : synthPodPreSecrets parseQ snr applyP removeP env f
        = { containers := [configureContainerUserIdCore snr
              (configureReadOnlyRootFsCore f.spec.readOnlyRootFilesystem
                (synthInitialContainer parseQ env f) []).1],
            volumes := (configureReadOnlyRootFsCore f.spec.readOnlyRootFilesystem
              (synthInitialContainer parseQ env f) []).2,
            nodeSelector := makeNodeSelector f.spec.constraints } := by
      simp [synthPodPreSecrets, hrm, hap]
    have hres : (configureContainerUserIdCore snr
        (configureReadOnlyRootFsCore f.spec.readOnlyRootFilesystem
          (synthInitialContainer parseQ env f) []).1).resources
        = (makeResources parseQ f.spec.limits f.spec.requests).1 := by
      rw [configureContainerUserIdCore_resources, configureReadOnlyRootFsCore_resources]
      rfl
    simp only [newStatefulSet]
    cases hcs : configureSecrets f.spec.name f.spec.secrets secrets
        (synthPodPreSecrets parseQ snr applyP removeP env f) with
    | error e => simp [hcs, hpod, hres]
    | ok p1 =>
      have hc1 := configureSecrets_ok_containers _ _ _ _ _ hcs
      simp [hcs, hc1, hpod, applySecretMounts_resources, hres]
  · intro parseQ snr applyP removeP env request ann ss0 c rest e hf hc hbad
    simp [updateStatefulSetSpec, hf, hc, updateContainerBranch, hbad]

/-- Witness for C5 at a concrete input: the malformed memory limit
`10x!` leaves the synthesized limit unset while synthesis still
produces the workload, and the same limit makes the update path return
the validation error with status 400 and no write. -/
theorem C5_resource_parse_asymmetry_witness :
    ((makeResources natParse (some ⟨"10x!", ""⟩) none).1.limitsMemory = none ∧
      (makeResources natParse (some ⟨"10x!", ""⟩) none).2 = true) ∧
    (newStatefulSet natParse encZero false noProfile noProfile envSynthOk fnBadResources none
      []).spec.template.spec.containers.map (fun c => c.resources)
      = [(makeResources natParse fnBadResources.spec.limits fnBadResources.spec.requests).1] ∧
    updateStatefulSetSpec natParse false noProfile noProfile envUpdOk reqBadResources []
      = ⟨Except.error ("invalid resource quantity", 400), false⟩ := by
  refine ⟨?_, ?_, ?_⟩
  · exact C5_resource_parse_asymmetry.1 natParse "10x!" "" none (by decide) (by decide)
  · exact C5_resource_parse_asymmetry.2.1 natParse encZero false noProfile noProfile
      envSynthOk fnBadResources none [] rfl rfl
  · exact C5_resource_parse_asymmetry.2.2 natParse false noProfile noProfile
      envUpdOk reqBadResources [] ssFetched3 basicContainer [] "invalid resource quantity"
      rfl rfl (by decide)

/-- Counterexample to claim C1 as stated: the claimed law is
max(min, existing) whenever both are present, on both paths.  On the
update path, with existing replicas 3 and declared minimum 2, the
persisted count is 2, not max(2, 3) = 3 (update.go overwrites with the
minimum whenever one is declared); and on the synthesis path, with
declared minimum 2 and existing count 0, the persisted count is 0, not
max(2, 0) = 2, exactly as pinned by the Test_Replicas scenario the
claim cites. -/
theorem C1_replica_policy_counterexample :
    ((updateStatefulSetSpec natParse false noProfile noProfile envUpdOk reqMin2
        []).result.toOption.map (fun s => s.spec.replicas)) = some (some 2) ∧
    some (2 : Int) ≠ some (max 2 3) ∧
    getReplicas fnMin2 (some (ssRep 0)) = some 0 ∧
    some (0 : Int) ≠ some (max 2 0) := by
  refine ⟨by decide, by decide, by decide, by decide⟩

/-- Claim C1, amended: on the synthesis path getReplicas returns nil
when neither a declared minimum nor an existing count is present, the
minimum when only it is present, the existing count when only it is
present, the existing count unchanged when it is zero (scale-to-zero
preserved), and max(min, existing) when both are present and the
existing count is non-zero; on the update path a declared parseable
minimum overwrites the persisted count unconditionally, and the fetched
count is kept when no minimum is declared or parseable. -/
theorem C1_replica_policy_amended :
    (∀ (f : Function) (ex : Option StatefulSet) (m e : Int),
        declaredMin f = some m → observedReplicas ex = some e → e ≠ 0 →
        getReplicas f ex = some (max m e)) ∧
    (∀ (f : Function) (ex : Option StatefulSet) (m : Int),
        declaredMin f = some m → observedReplicas ex = some 0 →
        getReplicas f ex = some 0) ∧
    (∀ (f : Function) (ex : Option StatefulSet) (m : Int),
        declaredMin f = some m → observedReplicas ex = none →
        getReplicas f ex = some m) ∧
    (∀ (f : Function) (ex : Option StatefulSet) (e : Int),
        declaredMin f = none → observedReplicas ex = some e →
        getReplicas f ex = some e) ∧
    (∀ (f : Function) (ex : Option StatefulSet),
        declaredMin f = none → observedReplicas ex = none →
        getReplicas f ex = none) ∧
    (∀ (parseQ : String → Option Nat) (snr : Bool)
        (applyP removeP : Profile → PodSpec → PodSpec) (env : UpdateEnv)
        (request : FunctionDeployment) (ann : SMap) (ss0 : StatefulSet)
        (c : Container) (rest : List Container) (lbs : SMap) (m : Int)
        (res : Resources) (resolved : List (String × SecretDescriptor))
        (pb : Option String × Option String) (trm tap : List Profile),
        request.labels = some lbs → getMinReplicaCount lbs = some m →
        createResources parseQ request.limits request.requests = Except.ok res →
        env.secretsFetch = Except.ok resolved →
        (∀ n ∈ request.secrets, (List.lookup n resolved).isSome) →
        env.probesResult = Except.ok pb →
        env.profilesToRemove = Except.ok trm → env.profilesToApply = Except.ok tap →
        ∃ ssF, updateContainerBranch parseQ snr applyP removeP env request ann ss0 c rest
            = Except.ok ssF ∧ ssF.spec.replicas = some m) ∧
    (∀ (parseQ : String → Option Nat) (snr : Bool)
        (applyP removeP : Profile → PodSpec → PodSpec) (env : UpdateEnv)
        (request : FunctionDeployment) (ann : SMap) (ss0 : StatefulSet)
        (c : Container) (rest : List Container)
        (res : Resources) (resolved : List (String × SecretDescriptor))
        (pb : Option String × Option String) (trm tap : List Profile),
        (request.labels = none ∨
          ∃ lbs, request.labels = some lbs ∧ getMinReplicaCount lbs = none) →
        createResources parseQ request.limits request.requests = Except.ok res →
        env.secretsFetch = Except.ok resolved →
        (∀ n ∈ request.secrets, (List.lookup n resolved).isSome) →
        env.probesResult = Except.ok pb →
        env.profilesToRemove = Except.ok trm → env.profilesToApply = Except.ok tap →
        ∃ ssF, updateContainerBranch parseQ snr applyP removeP env request ann ss0 c rest
            = Except.ok ssF ∧ ssF.spec.replicas = ss0.spec.replicas) := by
  refine ⟨?_, ?_, ?_, ?_, ?_, ?_, ?_⟩
  · intro f ex m e h1 h2 hne
    simp only [getReplicas, h1, h2, if_neg hne]
    rcases lt_or_ge e m with hlt | hge
    · rw [if_pos hlt, max_eq_left (le_of_lt hlt)]
    · rw [if_neg (not_lt.mpr hge), max_eq_right hge]
  · intro f ex m h1 h2
    simp [getReplicas, h1, h2]
  · intro f ex m h1 h2
    simp [getReplicas, h1, h2]
  · intro f ex e h1 h2
    simp [getReplicas, h1, h2]
  · intro f ex h1 h2
    simp [getReplicas, h1, h2]
  · intro parseQ snr applyP removeP env request ann ss0 c rest lbs m res resolved pb trm tap
      hlbs hmin hres hsec hcov hpb htrm htap
    obtain ⟨ps, hps⟩ := projectionsFor_isOk request.secrets resolved hcov
    cases hub : updateContainerBranch parseQ snr applyP removeP env request ann ss0 c rest with
    | error e =>
      simp [updateContainerBranch, hlbs, hmin, hres, hsec, hpb, htrm, htap,
        configureSecrets, hps, Except.map] at hub
    | ok ssF =>
      refine ⟨ssF, rfl, ?_⟩
      simp [updateContainerBranch, hlbs, hmin, hres, hsec, hpb, htrm, htap,
        configureSecrets, hps, Except.map] at hub
      rw [← hub]
  · intro parseQ snr applyP removeP env request ann ss0 c rest res resolved pb trm tap
      hlbs hres hsec hcov hpb htrm htap
    obtain ⟨ps, hps⟩ := projectionsFor_isOk request.secrets resolved hcov
    cases hub : updateContainerBranch parseQ snr applyP removeP env request ann ss0 c rest with
    | error e =>
      rcases hlbs with hnone | ⟨lbs, hsome, hmin⟩
      · simp [updateContainerBranch, hnone, hres, hsec, hpb, htrm, htap,
          configureSecrets, hps, Except.map] at hub
      · simp [updateContainerBranch, hsome, hmin, hres, hsec, hpb, htrm, htap,
          configureSecrets, hps, Except.map] at hub
    | ok ssF =>
      refine ⟨ssF, rfl, ?_⟩
      rcases hlbs with hnone | ⟨lbs, hsome, hmin⟩
      · simp [updateContainerBranch, hnone, hres, hsec, hpb, htrm, htap,
          configureSecrets, hps, Except.map] at hub
        rw [← hub]
      · simp [updateContainerBranch, hsome, hmin, hres, hsec, hpb, htrm, htap,
          configureSecrets, hps, Except.map] at hub
        rw [← hub]

/-- Witness for the amended C1 at concrete inputs: both-present non-zero
gives the maximum, zero is preserved, single-sided cases pass through,
and the concrete update run with minimum 2 over existing 3 persists
2. -/
theorem C1_replica_policy_amended_witness :
    getReplicas fnMin2 (some (ssRep 3)) = some (max 2 3) ∧
    getReplicas fnMin2 (some (ssRep 0)) = some 0 ∧
    getReplicas fnMin2 none = some 2 ∧
    getReplicas fnZero (some (ssRep 3)) = some 3 ∧
    getReplicas fnZero none = none ∧
    (∃ ssF, updateContainerBranch natParse false noProfile noProfile envUpdOk reqMin2 []
        ssFetched3 basicContainer [] = Except.ok ssF ∧ ssF.spec.replicas = some 2) := by
  refine ⟨?_, ?_, ?_, ?_, ?_, ?_⟩
  · exact C1_replica_policy_amended.1 fnMin2 (some (ssRep 3)) 2 3
      (by decide) (by decide) (by decide)
  · exact C1_replica_policy_amended.2.1 fnMin2 (some (ssRep 0)) 2 (by decide) (by decide)
  · exact C1_replica_policy_amended.2.2.1 fnMin2 none 2 (by decide) (by decide)
  · exact C1_replica_policy_amended.2.2.2.1 fnZero (some (ssRep 3)) 3 (by decide) (by decide)
  · exact C1_replica_policy_amended.2.2.2.2.1 fnZero none (by decide) (by decide)
  · exact C1_replica_policy_amended.2.2.2.2.2.1 natParse false noProfile noProfile envUpdOk
      reqMin2 [] ssFetched3 basicContainer [] [(LabelMinReplicas, "2")] 2 Resources.empty
      resolvedSecrets (none, none) [] [] rfl (by decide) (by decide) rfl (by decide) rfl rfl rfl

/-- Counterexample to claim C9 as stated: the synthesized workload's
pod-template labels, produced by makeLabels, carry no `uid` label at
all (makeLabels sets only faas_function, app and controller plus the
function's own labels); the timestamp-derived uid appears only on the
update path. -/
theorem C9_uid_label_counterexample :
    List.lookup "uid" (makeLabels fnMissingSecret) = none ∧
    List.lookup "uid" ((newStatefulSet natParse encZero false noProfile noProfile envSynthOk
      fnMissingSecret none []).spec.template.labels) = none := by
  refine ⟨by decide, by decide⟩

/-- Claim C9, amended: the workload produced by synthesis carries the
labels app, controller and faas_function (and no uid label when the
function declares none), its pod-template labels are exactly makeLabels
of the input, and synthesis is fully deterministic in the model; the
timestamp-derived uid label, together with faas_function and the
request labels, is set by the update path's pod template. -/
theorem C9_synthesis_labels_amended :
    (∀ f : Function,
        (∀ kv ∈ f.spec.labels.getD [],
          kv.1 ≠ "app" ∧ kv.1 ≠ "controller" ∧ kv.1 ≠ "faas_function" ∧ kv.1 ≠ "uid") →
        List.lookup "app" (makeLabels f) = some f.spec.name ∧
        List.lookup "controller" (makeLabels f) = some f.name ∧
        List.lookup "faas_function" (makeLabels f) = some f.spec.name ∧
        List.lookup "uid" (makeLabels f) = none) ∧
    (∀ (parseQ : String → Option Nat) (encode : FunctionSpec → String) (snr : Bool)
        (applyP removeP : Profile → PodSpec → PodSpec) (env : SynthEnv) (f : Function)
        (ex : Option StatefulSet) (secrets : List (String × SecretDescriptor)),
        (newStatefulSet parseQ encode snr applyP removeP env f ex
          secrets).spec.template.labels = makeLabels f) ∧
    (∀ (parseQ : String → Option Nat) (snr : Bool)
        (applyP removeP : Profile → PodSpec → PodSpec) (env : UpdateEnv)
        (request : FunctionDeployment) (ann : SMap) (ss0 : StatefulSet)
        (c : Container) (rest : List Container)
        (res : Resources) (resolved : List (String × SecretDescriptor))
        (pb : Option String × Option String) (trm tap : List Profile),
        (∀ kv ∈ request.labels.getD [], kv.1 ≠ "uid" ∧ kv.1 ≠ "faas_function") →
        createResources parseQ request.limits request.requests = Except.ok res →
        env.secretsFetch = Except.ok resolved →
        (∀ n ∈ request.secrets, (List.lookup n resolved).isSome) →
        env.probesResult = Except.ok pb →
        env.profilesToRemove = Except.ok trm → env.profilesToApply = Except.ok tap →
        ∃ ssF, updateContainerBranch parseQ snr applyP removeP env request ann ss0 c rest
            = Except.ok ssF ∧
          List.lookup "uid" ssF.spec.template.labels = some env.uid ∧
          List.lookup "faas_function" ssF.spec.template.labels = some request.service) := by
  refine ⟨?_, ?_, ?_⟩
  · intro f h
    refine ⟨?_, ?_, ?_, ?_⟩
    · rw [makeLabels, lookup_mergeInto_of_notin _ _ _ (fun kv hk => (h kv hk).1)]
      rfl
    · rw [makeLabels, lookup_mergeInto_of_notin _ _ _ (fun kv hk => (h kv hk).2.1)]
      rfl
    · rw [makeLabels, lookup_mergeInto_of_notin _ _ _ (fun kv hk => (h kv hk).2.2.1)]
      rfl
    · rw [makeLabels, lookup_mergeInto_of_notin _ _ _ (fun kv hk => (h kv hk).2.2.2)]
      rfl
  · intro parseQ encode snr applyP removeP env f ex secrets
    rfl
  · intro parseQ snr applyP removeP env request ann ss0 c rest res resolved pb trm tap
      hcl hres hsec hcov hpb htrm htap
    obtain ⟨ps, hps⟩ := projectionsFor_isOk request.secrets resolved hcov
    cases hub : updateContainerBranch parseQ snr applyP removeP env request ann ss0 c rest with
    | error e =>
      simp [updateContainerBranch, hres, hsec, hpb, htrm, htap,
        configureSecrets, hps, Except.map] at hub
    | ok ssF =>
      have hl : ssF.spec.template.labels
          = mergeInto [("faas_function", request.service), ("uid", env.uid)]
              (request.labels.getD []) := by
        simp [updateContainerBranch, hres, hsec, hpb, htrm, htap,
          configureSecrets, hps, Except.map] at hub
        rw [← hub]
      refine ⟨ssF, rfl, ?_, ?_⟩
      · rw [hl, lookup_mergeInto_of_notin _ _ _ (fun kv hk => (hcl kv hk).1)]
        rfl
      · rw [hl, lookup_mergeInto_of_notin _ _ _ (fun kv hk => (hcl kv hk).2)]
        rfl

/-- Witness for the amended C9 at concrete inputs: the synthesized
labels of the concrete function carry app, controller and faas_function
and no uid, and the concrete update run stamps the uid from its
environment. -/
theorem C9_synthesis_labels_amended_witness :
    (List.lookup "app" (makeLabels fnMissingSecret) = some "testfunc" ∧
      List.lookup "controller" (makeLabels fnMissingSecret) = some "" ∧
      List.lookup "faas_function" (makeLabels fnMissingSecret) = some "testfunc" ∧
      List.lookup "uid" (makeLabels fnMissingSecret) = none) ∧
    (newStatefulSet natParse encZero false noProfile noProfile envSynthOk fnMissingSecret none
      []).spec.template.labels = makeLabels fnMissingSecret ∧
    (∃ ssF, updateContainerBranch natParse false noProfile noProfile envUpdOk reqMin2 []
        ssFetched3 basicContainer [] = Except.ok ssF ∧
      List.lookup "uid" ssF.spec.template.labels = some "42" ∧
      List.lookup "faas_function" ssF.spec.template.labels = some "testfunc") := by
  refine ⟨?_, ?_, ?_⟩
  · exact C9_synthesis_labels_amended.1 fnMissingSecret (by decide)
  · exact C9_synthesis_labels_amended.2.1 natParse encZero false noProfile noProfile
      envSynthOk fnMissingSecret none []
  · exact C9_synthesis_labels_amended.2.2 natParse false noProfile noProfile envUpdOk
      reqMin2 [] ssFetched3 basicContainer [] Resources.empty resolvedSecrets (none, none)
      [] [] (by decide) (by decide) rfl (by decide) rfl rfl rfl

/-- Counterexample to claim C6 as stated: with a requested secret the
resolver does not cover, the projection operation does fail, but the
synthesis-path reconcile does not surface the error and does not stop:
newStatefulSet still returns the complete workload, its pod spec being
exactly the pre-projection pod (the failure is only logged). -/
theorem C6_secret_miss_counterexample :
    (configureSecrets "testfunc" ["missing"] []
      (synthPodPreSecrets natParse false noProfile noProfile envSynthOk
        fnMissingSecret)).isOk = false ∧
    (newStatefulSet natParse encZero false noProfile noProfile envSynthOk fnMissingSecret none
      []).spec.template.spec
      = synthPodPreSecrets natParse false noProfile noProfile envSynthOk fnMissingSecret := by
  refine ⟨by decide, by decide⟩

/-- Claim C6, amended: a lookup miss for a requested secret makes the
projection operation signal an error before any mutation (the workload
is left exactly as it was); the update path surfaces the error with
HTTP 400 and performs no store write, both when the secrets fetch
itself fails and when the projection reports the miss; the synthesis
path, however, only logs the failure and proceeds, returning the
workload with its pod spec unchanged rather than surfacing the error. -/
theorem C6_secret_miss_amended :
    (∀ (svc : String) (S : List String) (resolved : List (String × SecretDescriptor))
        (p : PodSpec) (n : String),
        n ∈ S → List.lookup n resolved = none →
        ∃ e, configureSecrets svc S resolved p = Except.error e) ∧
    (∀ (parseQ : String → Option Nat) (snr : Bool)
        (applyP removeP : Profile → PodSpec → PodSpec) (env : UpdateEnv)
        (request : FunctionDeployment) (ann : SMap) (ss0 : StatefulSet)
        (c : Container) (rest : List Container) (res : Resources) (e : String),
        env.fetched = Except.ok ss0 →
        ss0.spec.template.spec.containers = c :: rest →
        createResources parseQ request.limits request.requests = Except.ok res →
        env.secretsFetch = Except.error e →
        updateStatefulSetSpec parseQ snr applyP removeP env request ann
          = ⟨Except.error (e, 400), false⟩) ∧
    (∀ (parseQ : String → Option Nat) (snr : Bool)
        (applyP removeP : Profile → PodSpec → PodSpec) (env : UpdateEnv)
        (request : FunctionDeployment) (ann : SMap) (ss0 : StatefulSet)
        (c : Container) (rest : List Container) (res : Resources)
        (resolved : List (String × SecretDescriptor)) (n : String),
        env.fetched = Except.ok ss0 →
        ss0.spec.template.spec.containers = c :: rest →
        createResources parseQ request.limits request.requests = Except.ok res →
        env.secretsFetch = Except.ok resolved →
        n ∈ request.secrets → List.lookup n resolved = none →
        ∃ e, updateStatefulSetSpec parseQ snr applyP removeP env request ann
          = ⟨Except.error (e, 400), false⟩) ∧
    (∀ (parseQ : String → Option Nat) (encode : FunctionSpec → String) (snr : Bool)
        (applyP removeP : Profile → PodSpec → PodSpec) (env : SynthEnv) (f : Function)
        (ex : Option StatefulSet) (secrets : List (String × SecretDescriptor)),
        (configureSecrets f.spec.name f.spec.secrets secrets
          (synthPodPreSecrets parseQ snr applyP removeP env f)).isOk = false →
        newStatefulSet parseQ encode snr applyP removeP env f ex secrets
          = { name := f.spec.name, ns := f.ns,
              annotations := makeAnnotations encode f,
              spec :=
                { replicas := getReplicas f ex, maxUnavailable := 0,
                  template :=
                    { labels := makeLabels f, annotations := makeAnnotations encode f,
                      spec := synthPodPreSecrets parseQ snr applyP removeP env f } } }) := by
  refine ⟨?_, ?_, ?_, ?_⟩
  · intro svc S resolved p n hn hmiss
    obtain ⟨e, he⟩ := configureSecrets_miss svc S resolved n hn hmiss
    exact ⟨e, he p⟩
  · intro parseQ snr applyP removeP env request ann ss0 c rest res e hf hc hres hsec
    simp [updateStatefulSetSpec, hf, hc, updateContainerBranch, hres, hsec]
  · intro parseQ snr applyP removeP env request ann ss0 c rest res resolved n
      hf hc hres hsec hn hmiss
    obtain ⟨e, he⟩ := configureSecrets_miss request.service request.secrets resolved n hn hmiss
    exact ⟨e, by simp [updateStatefulSetSpec, hf, hc, updateContainerBranch, hres, hsec, he]⟩
  · intro parseQ encode snr applyP removeP env f ex secrets hfail
    simp only [newStatefulSet]
    cases hcs : configureSecrets f.spec.name f.spec.secrets secrets
        (synthPodPreSecrets parseQ snr applyP removeP env f) with
    | error e => simp [hcs]
    | ok p1 =>
      rw [hcs] at hfail
      simp [Except.isOk, Except.toBool] at hfail

/-- Witness for the amended C6 at concrete inputs: the concrete miss
makes the projection fail; the update run with a failing secrets fetch,
and the one requesting the uncovered secret, both return 400 without a
write; and the synthesis run for the function requesting the uncovered
secret returns the workload with its pre-projection pod spec. -/
theorem C6_secret_miss_amended_witness :
    (∃ e, configureSecrets "testfunc" ["missing"] [] basicPod = Except.error e) ∧
    updateStatefulSetSpec natParse false noProfile noProfile envUpdSecErr reqMin2 []
      = ⟨Except.error ("secrets fetch failed", 400), false⟩ ∧
    (∃ e, updateStatefulSetSpec natParse false noProfile noProfile envUpdOk reqMissingSecret []
      = ⟨Except.error (e, 400), false⟩) ∧
    newStatefulSet natParse encZero false noProfile noProfile envSynthOk fnMissingSecret none []
      = { name := "testfunc", ns := "",
          annotations := makeAnnotations encZero fnMissingSecret,
          spec :=
            { replicas := getReplicas fnMissingSecret none, maxUnavailable := 0,
              template :=
                { labels := makeLabels fnMissingSecret,
                  annotations := makeAnnotations encZero fnMissingSecret,
                  spec := synthPodPreSecrets natParse false noProfile noProfile envSynthOk
                    fnMissingSecret } } } := by
  refine ⟨?_, ?_, ?_, ?_⟩
  · exact C6_secret_miss_amended.1 "testfunc" ["missing"] [] basicPod "missing"
      (by decide) (by decide)
  · exact C6_secret_miss_amended.2.1 natParse false noProfile noProfile envUpdSecErr
      reqMin2 [] ssFetched3 basicContainer [] Resources.empty "secrets fetch failed"
      rfl rfl (by decide) rfl
  · exact C6_secret_miss_amended.2.2.1 natParse false noProfile noProfile envUpdOk
      reqMissingSecret [] ssFetched3 basicContainer [] Resources.empty resolvedSecrets
      "missing" rfl rfl (by decide) rfl (by decide) (by decide)
  · exact C6_secret_miss_amended.2.2.2 natParse encZero false noProfile noProfile envSynthOk
      fnMissingSecret none [] (by decide)

end FaasNetes
